import Mathlib

/-!
Verification of the assertion/matcher subsystem of the AristaLibrary
Robot Framework library (files `AristaLibrary/Expect.py` and
`AristaLibrary/AristaExpect.py`).

The Python code is shallowly embedded: Python values flowing through the
matcher are a `PyVal` tree, Python exceptions are a `PyErr` sum carried in
`Except`, the per-suite mutable instance (`import_cmd`, `switch_cmd`,
`result`) is an explicit `ExpectLib` record, and the eAPI collaborator
(`arista_lib`) is an explicit `Collab` record of response functions.
Python 2 semantics are modelled (the source uses `unicode` and
`e.message`, so it is Python 2 code).

Idealisations, each noted again at its definition:
* Python `float` is modelled as an exact rational (`Rat`); binary rounding,
  overflow to `inf`, and the literals `inf`/`nan` accepted by `float()` are
  not modelled.  No theorem below depends on float rounding.
* The regular-expression search used by `_contains_line` on lists is
  modelled for match values that contain no regex metacharacters, where
  `re.search("\s*" + m, line)` succeeds exactly when `m` occurs in `line`
  as a substring (the leading `\s*` can match the empty string at every
  position `re.search` tries).  Theorems that rely on the list branch carry
  a `regexLiteral` hypothesis.
* Python's dynamic `getattr` dispatch is modelled as the table of predicate
  methods the class defines (`matchDispatch` / `aeDispatch`) together with
  the finite set of underscore-named attributes `getattr` also finds on
  every instance — the object-protocol members such as `__init__` and
  `__class__` (`inheritedAttrNames`).  Calling such an attribute with the
  dispatch site's four arguments raises a TypeError (arity or
  not-callable), represented by the single fixed message of
  `inheritedCallTypeError` since the Python text varies per attribute;
  `__subclasshook__` alone is a varargs class method that ignores its
  arguments and returns NotImplemented, so that match type passes.
-/

/-- A Python value as it flows through the Expect library: decoded JSON
(dicts, lists, strings, numbers, booleans, None).  Python dicts are modelled
as association lists with distinct keys in insertion order. -/
inductive PyVal where
  | str (s : String)
  | int (n : Int)
  | float (q : Rat)
  | bool (b : Bool)
  | none
  | list (l : List PyVal)
  | dict (d : List (String × PyVal))
deriving Repr

/-- A Python exception as the Expect library can raise it.  `runtimeError`
is `RuntimeError` (both assertion failures and the numeric-coercion errors
use it in the source), `valueError` is `ValueError` (the unimplemented
match-type error), `keyError` is the `KeyError` of a failed dict lookup,
`typeError` is `TypeError`, `indexError` is `IndexError`. -/
inductive PyErr where
  | runtimeError (m : String)
  | valueError (m : String)
  | typeError (m : String)
  | keyError (k : String)
  | indexError (m : String)
deriving Repr, DecidableEq

deriving instance DecidableEq for Except

/-- Python `str.lower()` (ASCII case folding suffices for the inputs the
library sees). -/
def strLower (s : String) : String := ⟨s.data.map Char.toLower⟩

/-- Python `s.replace(' ', '_')`: every space becomes an underscore. -/
def replaceSpace (s : String) : String :=
  ⟨s.data.map (fun c => if c = ' ' then '_' else c)⟩

/-- The characters Python `str.split()` / `str.strip()` treat as whitespace. -/
def pyWhitespace (c : Char) : Bool :=
  c = ' ' || c = '\t' || c = '\n' || c = '\r' || c = '\x0b' || c = '\x0c'

/-- Helper for `pySplit`: accumulate the current token (reversed) while
scanning the character list. -/
def splitWSAux : List Char → List Char → List String
  | [], [] => []
  | [], acc => [⟨acc.reverse⟩]
  | c :: cs, acc =>
    if pyWhitespace c then
      match acc with
      | [] => splitWSAux cs []
      | _ => (⟨acc.reverse⟩ : String) :: splitWSAux cs []
    else splitWSAux cs (c :: acc)

/-- Python `s.split()` with no argument: split on runs of whitespace,
dropping empty pieces. -/
def pySplit (s : String) : List String := splitWSAux s.data []

/-- Python `s.strip()`: remove leading and trailing whitespace. -/
def pyStrip (s : String) : String :=
  ⟨((s.data.dropWhile pyWhitespace).reverse.dropWhile pyWhitespace).reverse⟩

/-- Helper for `pySplitLines`: Python `s.split('\n')` keeps empty pieces and
always yields at least one piece. -/
def splitNLAux : List Char → List Char → List String
  | [], acc => [⟨acc.reverse⟩]
  | c :: cs, acc =>
    if c = '\n' then (⟨acc.reverse⟩ : String) :: splitNLAux cs []
    else splitNLAux cs (c :: acc)

/-- Python `s.split('\n')`. -/
def pySplitLines (s : String) : List String := splitNLAux s.data []

/-- Whether `pre` is a prefix of `l` (over characters). -/
def listStarts : List Char → List Char → Bool
  | [], _ => true
  | _ :: _, [] => false
  | a :: as, b :: bs => a = b && listStarts as bs

/-- Whether `needle` occurs inside `hay` as a contiguous substring. -/
def hasSubList (needle : List Char) : List Char → Bool
  | [] => listStarts needle []
  | c :: cs => listStarts needle (c :: cs) || hasSubList needle cs

/-- Python `needle in hay` on strings: substring containment. -/
def strInfix (needle hay : String) : Bool := hasSubList needle.data hay.data

/-- Python `s.startswith(p)`. -/
def strStarts (s p : String) : Bool := listStarts p.data s.data

/-- Decimal digits to the `Nat` they denote (most significant first). -/
def digitsToNat : List Char → Nat → Nat
  | [], acc => acc
  | c :: cs, acc => digitsToNat cs (acc * 10 + (c.toNat - 48))

/-- Whether every character is a decimal digit. -/
def allDigits : List Char → Bool
  | [] => true
  | c :: cs => c.isDigit && allDigits cs

/-- Python 2 `int(s)` on a string: optional surrounding whitespace, optional
sign, then one or more base-10 digits; anything else raises
`ValueError("invalid literal for int() ...")`, modelled as `none`. -/
def pyParseInt (s : String) : Option Int :=
  let t := ((s.data.dropWhile pyWhitespace).reverse.dropWhile pyWhitespace).reverse
  match t with
  | '+' :: ds => if ds ≠ [] ∧ allDigits ds then some (digitsToNat ds 0) else Option.none
  | '-' :: ds => if ds ≠ [] ∧ allDigits ds then some (-(digitsToNat ds 0 : Int)) else Option.none
  | ds => if ds ≠ [] ∧ allDigits ds then some (digitsToNat ds 0) else Option.none

/-- Exponent tail of a float literal: optional sign then one or more digits,
scaling `base` by the corresponding power of ten. -/
def parseExpDigits (base : Rat) (cs : List Char) : Option Rat :=
  let signed : Int × List Char :=
    match cs with
    | '+' :: rest => (1, rest)
    | '-' :: rest => (-1, rest)
    | rest => (1, rest)
  if signed.2 ≠ [] ∧ allDigits signed.2 then
    let e : Nat := digitsToNat signed.2 0
    some (if signed.1 = 1 then base * (10 : Rat) ^ e else base / (10 : Rat) ^ e)
  else Option.none

/-- Optional exponent after the mantissa of a float literal. -/
def parseExpPart (base : Rat) : List Char → Option Rat
  | [] => some base
  | 'e' :: rest => parseExpDigits base rest
  | 'E' :: rest => parseExpDigits base rest
  | _ => Option.none

/-- Unsigned float literal: `digits [. digits] [exp]` or `. digits [exp]`. -/
def parseUFloat (cs : List Char) : Option Rat :=
  let ip := cs.takeWhile Char.isDigit
  let rest := cs.dropWhile Char.isDigit
  match rest with
  | [] => if ip = [] then Option.none else some ((digitsToNat ip 0 : Int) : Rat)
  | '.' :: rest2 =>
    let fp := rest2.takeWhile Char.isDigit
    let rest3 := rest2.dropWhile Char.isDigit
    if ip = [] ∧ fp = [] then Option.none
    else
      parseExpPart
        (((digitsToNat ip 0 : Int) : Rat) +
          mkRat (digitsToNat fp 0 : Int) (10 ^ fp.length)) rest3
  | rest1 => if ip = [] then Option.none else parseExpPart ((digitsToNat ip 0 : Int) : Rat) rest1

/-- Python 2 `float(s)` on a string: optional surrounding whitespace,
optional sign, decimal mantissa with optional fraction and exponent.
Idealised: the result is an exact rational (no binary rounding, no
overflow), and the special literals `inf`/`infinity`/`nan` are not
modelled (they do not occur in device output). A parse failure models
`ValueError("could not convert string to float ...")`. -/
def pyParseFloat (s : String) : Option Rat :=
  let t := ((s.data.dropWhile pyWhitespace).reverse.dropWhile pyWhitespace).reverse
  match t with
  | '+' :: rest => parseUFloat rest
  | '-' :: rest => (parseUFloat rest).map (fun q => -q)
  | rest => parseUFloat rest

mutual
/-- Python `repr` of a value, as `str.format` shows values nested inside
lists and dicts.  Strings are quoted without escaping (no message below
interpolates a string containing a quote); a non-integral float is shown as
`num/den`, an idealisation of Python float display that no theorem below
depends on. -/
def pyRepr : PyVal → String
  | .str s => "'" ++ s ++ "'"
  | .int n => toString n
  | .float q =>
    if q.den = 1 then toString q.num ++ ".0"
    else toString q.num ++ "/" ++ toString q.den
  | .bool b => if b then "True" else "False"
  | .none => "None"
  | .list l => "[" ++ pyReprList l ++ "]"
  | .dict d => "\x7b" ++ pyReprDict d ++ "\x7d"

/-- Comma-joined `repr`s of list elements. -/
def pyReprList : List PyVal → String
  | [] => ""
  | [v] => pyRepr v
  | v :: vs => pyRepr v ++ ", " ++ pyReprList vs

/-- Comma-joined `'key': repr` pairs of a dict. -/
def pyReprDict : List (String × PyVal) → String
  | [] => ""
  | [(k, v)] => "'" ++ k ++ "': " ++ pyRepr v
  | (k, v) :: kvs => "'" ++ k ++ "': " ++ pyRepr v ++ ", " ++ pyReprDict kvs
end

/-- Python `str(v)`: a string is itself, everything else shows as its repr
(matching `str` on ints, bools, None, lists and dicts). -/
def pyStr : PyVal → String
  | .str s => s
  | v => pyRepr v

/-- Numeric view of a value: Python's `bool` is an `int` subtype and `int`
and `float` compare by value. -/
def pyNumOf : PyVal → Option Rat
  | .int n => some (n : Rat)
  | .float q => some q
  | .bool b => some (if b then 1 else 0)
  | _ => Option.none

mutual
/-- Python `==` over the shapes the library sees: numbers by value, strings
by content, lists elementwise, dicts by their key-value lists (faithful for
the JSON-decoded dicts the library compares), different shapes unequal. -/
def pyEq : PyVal → PyVal → Bool
  | .str s, .str t => s = t
  | .none, .none => true
  | .list a, .list b => pyEqList a b
  | .dict a, .dict b => pyEqDict a b
  | a, b =>
    match pyNumOf a, pyNumOf b with
    | some x, some y => x = y
    | _, _ => false

/-- Elementwise list equality. -/
def pyEqList : List PyVal → List PyVal → Bool
  | [], [] => true
  | a :: as, b :: bs => pyEq a b && pyEqList as bs
  | _, _ => false

/-- Pairwise dict equality. -/
def pyEqDict : List (String × PyVal) → List (String × PyVal) → Bool
  | [], [] => true
  | (k, v) :: as, (k2, v2) :: bs => (k = k2 : Bool) && pyEq v v2 && pyEqDict as bs
  | _, _ => false
end

/-- Python truthiness. -/
def pyTruthy : PyVal → Bool
  | .str s => s ≠ ""
  | .int n => n ≠ 0
  | .float q => q ≠ 0
  | .bool b => b
  | .none => false
  | .list l => !l.isEmpty
  | .dict d => !d.isEmpty

/-- The error prefix `AE_ERR` of `Expect.py`. -/
def AE_ERR : String := "AristaLibrary.Expect: "

/-- Comma-joined quoted strings (repr of a list of strings, inner part). -/
def reprStrListAux : List String → String
  | [] => ""
  | [s] => "'" ++ s ++ "'"
  | s :: ss => "'" ++ s ++ "', " ++ reprStrListAux ss

/-- Python `str` of a list of strings, as the error messages interpolate the
key list (e.g. `['interfaces', 'Ethernet1']`). -/
def reprStrList (l : List String) : String := "[" ++ reprStrListAux l ++ "]"

/-- Python dict lookup (first match; dict keys are unique). -/
def dictGet : List (String × PyVal) → String → Option PyVal
  | [], _ => Option.none
  | (k, v) :: rest, key => if k = key then some v else dictGet rest key

/-- One step `returned = returned[k]` of path descent in `Expect.expect` /
`Expect.get_value`, with the surrounding `except TypeError` handler: only
the TypeError of indexing a list with a string contains
'list indices must be integers', so only a list is retried with `int(k)`
(negative indices count from the end, as in Python); other shapes re-raise
their TypeError, a missing dict key raises KeyError, and a segment that is
not an integer raises the ValueError of `int(k)`. -/
def getItem (v : PyVal) (k : String) : Except PyErr PyVal :=
  match v with
  | .dict d =>
    match dictGet d k with
    | some w => .ok w
    | Option.none => .error (.keyError k)
  | .list l =>
    match pyParseInt k with
    | some i =>
      let j : Int := if i < 0 then i + l.length else i
      if j < 0 then .error (.indexError "list index out of range")
      else
        match l.get? j.toNat with
        | some w => .ok w
        | Option.none => .error (.indexError "list index out of range")
    | Option.none =>
      .error (.valueError ("invalid literal for int() with base 10: '" ++ k ++ "'"))
  | .str _ => .error (.typeError "string indices must be integers, not str")
  | _ => .error (.typeError "object is not subscriptable")

/-- The `for k in keylist` descent loop of `Expect.expect` / `Expect.get_value`. -/
def descend : PyVal → List String → Except PyErr PyVal
  | v, [] => .ok v
  | v, k :: ks =>
    match getItem v k with
    | .ok w => descend w ks
    | .error e => .error e

/-- Python `msg or generated`: the override replaces the generated message
unless it is missing or empty (falsy). -/
def msgOr (msg : Option String) (gen : String) : String :=
  match msg with
  | some m => if m = "" then gen else m
  | Option.none => gen

/-- The Python value of the `match_value` argument (`None` when omitted). -/
def mvVal (mv : Option PyVal) : PyVal := mv.getD .none

/-- `str(match_value)` as the error messages interpolate it. -/
def mvStr (mv : Option PyVal) : String := pyStr (mvVal mv)

/-- Python `r != match` where `r` is already a string: a string equals only
an equal string (never a number, a list or None). -/
def strEqPy (r : String) (mv : Option PyVal) : Bool :=
  match mv with
  | some (.str t) => r = t
  | _ => false

/-- `Expect._is` (`Expect.py` 659-667): stringify the returned value, fail
with the generated (or overridden) message when it differs from the match
value. -/
def py_is (key : List String) (returned : PyVal) (mv : Option PyVal)
    (msg : Option String) : Except PyErr Unit :=
  let r := pyStr returned
  if strEqPy r mv then .ok ()
  else
    .error (.runtimeError (msgOr msg (AE_ERR ++ "Key: '" ++ reprStrList key ++
      "', Found: '" ++ r ++ "', Expected: '" ++ mvStr mv ++ "'")))

/-- `Expect._is_not` (686-694): fail when the stringified returned value
equals the match value. -/
def py_is_not (key : List String) (returned : PyVal) (mv : Option PyVal)
    (msg : Option String) : Except PyErr Unit :=
  let r := pyStr returned
  if strEqPy r mv then
    .error (.runtimeError (msgOr msg (AE_ERR ++ "Key: '" ++ reprStrList key ++
      "', Found: '" ++ r ++ "', Expected to not be: '" ++ mvStr mv ++ "'")))
  else .ok ()

/-- `Expect._empty` (713-718): fail when the returned value is truthy. -/
def py_empty (key : List String) (returned : PyVal) (mv : Option PyVal)
    (msg : Option String) : Except PyErr Unit :=
  if pyTruthy returned then
    .error (.runtimeError (msgOr msg (AE_ERR ++ "Key: '" ++ reprStrList key ++
      "', Found: '" ++ pyStr returned ++ "', Expected to be empty.")))
  else .ok ()

/-- `Expect._not_empty` (728-733): fail when the returned value is falsy. -/
def py_not_empty (key : List String) (returned : PyVal) (mv : Option PyVal)
    (msg : Option String) : Except PyErr Unit :=
  if pyTruthy returned then .ok ()
  else
    .error (.runtimeError (msgOr msg (AE_ERR ++ "Key: '" ++ reprStrList key ++
      "', Found: '" ++ pyStr returned ++ "', Expected to not be empty.")))

/-- `Expect._starts_with` (743-751): stringify and test the prefix;
`startswith` with a non-string argument raises TypeError in Python 2. -/
def py_starts_with (key : List String) (returned : PyVal) (mv : Option PyVal)
    (msg : Option String) : Except PyErr Unit :=
  let r := pyStr returned
  match mv with
  | some (.str t) =>
    if strStarts r t then .ok ()
    else
      .error (.runtimeError (msgOr msg (AE_ERR ++ "Key: '" ++ reprStrList key ++
        "', Found: '" ++ r ++ "', Expected to start with: '" ++ t ++ "'")))
  | _ => .error (.typeError "startswith first arg must be str, unicode, or tuple")

/-- `Expect._contains` (764-792): substring on strings (`in` on a string
needs a string operand), membership on lists, key membership on dicts,
otherwise the unable-to-determine failure. -/
def py_contains (key : List String) (returned : PyVal) (mv : Option PyVal)
    (msg : Option String) : Except PyErr Unit :=
  match returned with
  | .str s =>
    match mv with
    | some (.str t) =>
      if strInfix t s then .ok ()
      else
        .error (.runtimeError (msgOr msg (AE_ERR ++ "Key: '" ++ reprStrList key ++
          "', Found: '" ++ s ++ "', Expected to contain: '" ++ t ++ "'")))
    | _ => .error (.typeError "'in <string>' requires string as left operand")
  | .list l =>
    if l.any (fun w => pyEq (mvVal mv) w) then .ok ()
    else
      .error (.runtimeError (msgOr msg (AE_ERR ++ "Did not find '" ++ mvStr mv ++
        "' in '" ++ reprStrList key ++ "'")))
  | .dict d =>
    if d.any (fun kv => pyEq (mvVal mv) (.str kv.1)) then .ok ()
    else
      .error (.runtimeError (msgOr msg (AE_ERR ++ "Did not find key '" ++ mvStr mv ++
        "' in '" ++ reprStrList (d.map Prod.fst) ++ "'")))
  | _ => .error (.runtimeError (msgOr msg (AE_ERR ++ "Unable to determine type of return value")))

/-- `Expect._does_not_contain` (802-830); its fallback branch raises without
consulting the message override. -/
def py_does_not_contain (key : List String) (returned : PyVal) (mv : Option PyVal)
    (msg : Option String) : Except PyErr Unit :=
  match returned with
  | .str s =>
    match mv with
    | some (.str t) =>
      if strInfix t s then
        .error (.runtimeError (msgOr msg (AE_ERR ++ "Key: '" ++ reprStrList key ++
          "', Found: '" ++ s ++ "', Expected to not contain: '" ++ t ++ "'")))
      else .ok ()
    | _ => .error (.typeError "'in <string>' requires string as left operand")
  | .list l =>
    if l.any (fun w => pyEq (mvVal mv) w) then
      .error (.runtimeError (msgOr msg (AE_ERR ++ "Found '" ++ mvStr mv ++
        "' in '" ++ reprStrList key ++ "'")))
    else .ok ()
  | .dict d =>
    if d.any (fun kv => pyEq (mvVal mv) (.str kv.1)) then
      .error (.runtimeError (msgOr msg (AE_ERR ++ "Found key '" ++ mvStr mv ++
        "' in '" ++ reprStrList (d.map Prod.fst) ++ "'")))
    else .ok ()
  | _ => .error (.runtimeError (AE_ERR ++ "Unable to determine type of return value"))

/-- The characters Python regular expressions treat as metacharacters.  A
match value all of whose characters are outside this set is matched
literally by `re.search`. -/
def regexLiteral (s : String) : Bool :=
  s.data.all (fun c => !(("\\^$.|?*+()[]\x7b\x7d" : String).data.contains c))

/-- The list comprehension of `Expect._contains_line` (854-856): search
every line for the pattern `\s*` + match; a non-string element raises
TypeError when `re.search` reaches it, even when an earlier line matched.
Modelled for metacharacter-free match values, for which the search succeeds
exactly when the match value occurs in the line as a substring (the leading
`\s*` can match the empty string wherever `re.search` tries). -/
def containsLineList (pat : String) : List PyVal → Except PyErr Bool
  | [] => .ok false
  | .str line :: rest =>
    match containsLineList pat rest with
    | .ok b => .ok (strInfix pat line || b)
    | .error e => .error e
  | _ :: _ => .error (.typeError "expected string or buffer")

/-- `Expect._contains_line` (843-866): a string passes when it equals the
match value after `strip()`; a list passes when some line matches the
whitespace-prefixed pattern search (`containsLineList`); anything else is
the unable-to-determine failure. -/
def py_contains_line (key : List String) (returned : PyVal) (mv : Option PyVal)
    (msg : Option String) : Except PyErr Unit :=
  match returned with
  | .str s =>
    if strEqPy (pyStrip s) mv then .ok ()
    else
      .error (.runtimeError (msgOr msg (AE_ERR ++ "Key: '" ++ reprStrList key ++
        "', Found: '" ++ s ++ "', Expected to be: '" ++ mvStr mv ++ "'")))
  | .list l =>
    match containsLineList (mvStr mv) l with
    | .ok true => .ok ()
    | .ok false =>
      .error (.runtimeError (msgOr msg (AE_ERR ++ "Did not find '" ++ mvStr mv ++
        "' in '" ++ reprStrList key ++ "'")))
    | .error e => .error e
  | _ => .error (.runtimeError (msgOr msg (AE_ERR ++ "Unable to determine type of return value")))

/-- `Expect._does_not_contain_line` (876-895): plain (unstripped) equality
on strings, plain membership on lists; the fallback branch raises without
consulting the message override. -/
def py_does_not_contain_line (key : List String) (returned : PyVal) (mv : Option PyVal)
    (msg : Option String) : Except PyErr Unit :=
  match returned with
  | .str s =>
    if strEqPy s mv then
      .error (.runtimeError (msgOr msg (AE_ERR ++ "Found '" ++ mvStr mv ++
        "' in key '" ++ reprStrList key ++ "', Expected to not be found")))
    else .ok ()
  | .list l =>
    if l.any (fun w => pyEq (mvVal mv) w) then
      .error (.runtimeError (msgOr msg (AE_ERR ++ "Found '" ++ mvStr mv ++
        "' in '" ++ reprStrList key ++ "'")))
    else .ok ()
  | _ => .error (.runtimeError (AE_ERR ++ "Unable to determine type of return value"))

/-- Outcome of the `int(x)` / fallback `float(x)` coercion that
`Expect._greater` and `Expect._less` apply to each side.  The `isinstance`
guard in the source (`not isinstance(x, int) or not isinstance(x, float)`)
is always true, so the coercion runs even for numbers — `int()` on a float
truncates toward zero. `strFail` is a string neither `int()` nor `float()`
accepts (both ValueErrors are caught and answered with the RuntimeError
naming the failing side); `tyErr` is the uncaught TypeError `int()` raises
on a non-string non-number (e.g. None or a list). -/
inductive NumCoerce where
  | val (q : Rat)
  | strFail
  | tyErr (m : String)
deriving Repr, DecidableEq

/-- Truncation toward zero, as Python `int()` applies to a float. -/
def ratTrunc (q : Rat) : Int := if 0 ≤ q then ⌊q⌋ else ⌈q⌉

/-- The coercion itself (see `NumCoerce`). -/
def pyNumCoerce : PyVal → NumCoerce
  | .int n => .val (n : Rat)
  | .bool b => .val (if b then 1 else 0)
  | .float q => .val ((ratTrunc q : Int) : Rat)
  | .str s =>
    match pyParseInt s with
    | some n => .val (n : Rat)
    | Option.none =>
      match pyParseFloat s with
      | some q => .val q
      | Option.none => .strFail
  | _ => .tyErr "int() argument must be a string or a number"

/-- Display of a coerced number inside a generated message (`str` of the
coerced value): exact for the integers the theorems below exercise. -/
def ratPyStr (q : Rat) : String :=
  if q.den = 1 then toString q.num
  else toString q.num ++ "/" ++ toString q.den

/-- `Expect._greater` (908-942): coerce both sides (returned first — its
failure is reported before the match value is examined), then fail the
assertion when `returned <= match`. -/
def py_greater (key : List String) (returned : PyVal) (mv : Option PyVal)
    (msg : Option String) : Except PyErr Unit :=
  match pyNumCoerce returned with
  | .tyErr m => .error (.typeError m)
  | .strFail =>
    .error (.runtimeError (AE_ERR ++ "Key: '" ++ reprStrList key ++
      "', Returned: '" ++ pyStr returned ++ "', must compare to an int or float."))
  | .val r =>
    match pyNumCoerce (mvVal mv) with
    | .tyErr m => .error (.typeError m)
    | .strFail =>
      .error (.runtimeError (AE_ERR ++ "Key: '" ++ reprStrList key ++
        "', Match: '" ++ mvStr mv ++ "', must provide an int or float as a match value."))
    | .val m =>
      if r ≤ m then
        .error (.runtimeError (msgOr msg (AE_ERR ++ "Key: '" ++ reprStrList key ++
          "', Found: '" ++ ratPyStr r ++ "', Should be greater than: '" ++ ratPyStr m ++ "'")))
      else .ok ()

/-- `Expect._less` (964-998): same coercion as `_greater`, but the failing
comparison executes `raise RuntimeError(msg='...')` — `BaseException`
rejects keyword arguments, so Python raises a TypeError at that line and
both the caller's `msg` override and the generated text are discarded. -/
def py_less (key : List String) (returned : PyVal) (mv : Option PyVal)
    (msg : Option String) : Except PyErr Unit :=
  match pyNumCoerce returned with
  | .tyErr m => .error (.typeError m)
  | .strFail =>
    .error (.runtimeError (AE_ERR ++ "Key: '" ++ reprStrList key ++
      "', Returned: '" ++ pyStr returned ++ "', must compare to an int or float."))
  | .val r =>
    match pyNumCoerce (mvVal mv) with
    | .tyErr m => .error (.typeError m)
    | .strFail =>
      .error (.runtimeError (AE_ERR ++ "Key: '" ++ reprStrList key ++
        "', Match: '" ++ mvStr mv ++ "', must provide an int or float as a match value."))
    | .val m =>
      if m ≤ r then
        .error (.typeError "RuntimeError does not accept keyword arguments")
      else .ok ()

/-- The predicate families of `Expect.py`: one constructor per group of
alias methods that delegate to a shared implementation. -/
inductive MatchFamily where
  | isF
  | isNotF
  | emptyF
  | notEmptyF
  | startsWithF
  | containsF
  | notContainsF
  | containsLineF
  | notContainsLineF
  | greaterF
  | lessF
deriving Repr, DecidableEq

/-- The predicate-method part of the `getattr(self, match_string)` lookup
of `Expect.expect`: every listed name is a predicate method of `Expect.py`.
A name not listed here is not a method the class defines; `getattr` then
still finds the attributes of `inheritedAttrNames` (handled in `expectKW`),
and only a miss on those too is the AttributeError of the
method-not-implemented path. -/
def matchDispatch : String → Option MatchFamily
  | "_is" | "_is_equal_to" | "_isequalto" | "_equals" | "_to_be" | "_tobe" =>
    some .isF
  | "_is_not" | "_isnot" | "_is_not_equal_to" | "_isnotequalto" | "_to_not_be"
  | "_tonotbe" => some .isNotF
  | "_empty" | "_is_empty" | "_isempty" => some .emptyF
  | "_not_empty" | "_is_not_empty" | "_isnotempty" => some .notEmptyF
  | "_starts_with" | "_startswith" | "_begins_with" | "_beginswith" =>
    some .startsWithF
  | "_contains" | "_to_contain" | "_tocontain" => some .containsF
  | "_does_not_contain" | "_doesnotcontain" | "_to_not_contain" | "_tonotcontain" =>
    some .notContainsF
  | "_contains_line" | "_to_contain_line" | "_tocontainline" => some .containsLineF
  | "_does_not_contain_line" | "_doesnotcontainline" | "_to_not_contain_line"
  | "_tonotcontainline" => some .notContainsLineF
  | "_greater" | "_is_greater" | "_isgreater" | "_is_greater_than"
  | "_isgreaterthan" | "_greater_than" | "_greaterthan" => some .greaterF
  | "_less" | "_is_less" | "_isless" | "_is_less_than" | "_islessthan"
  | "_less_than" | "_lessthan" => some .lessF
  | _ => Option.none

/-- Invocation of a family's shared implementation with the arguments
`Expect.expect` passes (`keylist`, resolved value, match value, message). -/
def applyMatchFamily : MatchFamily → List String → PyVal → Option PyVal →
    Option String → Except PyErr Unit
  | .isF, k, r, m, g => py_is k r m g
  | .isNotF, k, r, m, g => py_is_not k r m g
  | .emptyF, k, r, m, g => py_empty k r m g
  | .notEmptyF, k, r, m, g => py_not_empty k r m g
  | .startsWithF, k, r, m, g => py_starts_with k r m g
  | .containsF, k, r, m, g => py_contains k r m g
  | .notContainsF, k, r, m, g => py_does_not_contain k r m g
  | .containsLineF, k, r, m, g => py_contains_line k r m g
  | .notContainsLineF, k, r, m, g => py_does_not_contain_line k r m g
  | .greaterF, k, r, m, g => py_greater k r m g
  | .lessF, k, r, m, g => py_less k r m g

/-- A command as `get_command_output` may receive it: a string, or an
already-structured payload (dict or list) sent to `enable` directly. -/
inductive PyCmd where
  | strc (s : String)
  | dictc (d : List (String × PyVal))
  | listc (l : List PyVal)
deriving Repr

/-- Python truthiness of an optional command (`None`, the empty string and
empty containers are falsy). -/
def cmdTruthy : Option PyCmd → Bool
  | Option.none => false
  | some (.strc s) => s ≠ ""
  | some (.dictc d) => !d.isEmpty
  | some (.listc l) => !l.isEmpty

/-- Lookup in a Python dict keyed by switch index. -/
def alLookup {α : Type} : List (Nat × α) → Nat → Option α
  | [], _ => Option.none
  | (k, v) :: rest, i => if k = i then some v else alLookup rest i

/-- Assignment `d[i] = v` in a Python dict keyed by switch index. -/
def alInsert {α : Type} : List (Nat × α) → Nat → α → List (Nat × α)
  | [], i, v => [(i, v)]
  | (k, w) :: rest, i, v =>
    if k = i then (i, v) :: rest else (k, w) :: alInsert rest i v

/-- The per-suite state of an `AristaLibrary.Expect` instance: the command
given at import (`self.import_cmd`), the per-switch remembered commands
(`self.switch_cmd`) and the per-switch stored results (`self.result`).  A
switch index missing from `result` has never had a result stored; a stored
`PyVal.none` is a cleared result. -/
structure ExpectLib where
  importCmd : Option PyCmd
  switchCmd : List (Nat × Option PyCmd)
  result : List (Nat × PyVal)

/-- Lines 627-640 of `Expect.expect`: fetch the stored result — a missing
entry is the KeyError of `self.result[index]`, the spec's NoResultError —
and resolve the value to match: descent along the whitespace-split key is
skipped exactly for the case-insensitive keys 'config' and 'full output'. -/
def expectResolved (st : ExpectLib) (index : Nat) (key : String) :
    Except PyErr PyVal :=
  match alLookup st.result index with
  | Option.none => .error (.keyError (toString index))
  | some r0 =>
    if strLower key = "config" ∨ strLower key = "full output" then .ok r0
    else descend r0 (pySplit key)

/-- The underscore-prefixed attribute names `getattr` finds on an `Expect`
(or `AristaExpect`) instance beyond the predicate methods: the class's own
`__init__` and the object-protocol members every Python 2 new-style
instance inherits.  (Everything else the class defines — `expect`,
`get_value`, `get_command_output` and its aliases, the instance fields and
`ROBOT_LIBRARY_SCOPE`/`ROBOT_LIBRARY_VERSION` — does not start with an
underscore, and the built method name always does, so those are
unreachable.) -/
def inheritedAttrNames : List String :=
  ["__init__", "__class__", "__delattr__", "__dict__", "__doc__",
   "__format__", "__getattribute__", "__hash__", "__module__", "__new__",
   "__reduce__", "__reduce_ex__", "__repr__", "__setattr__", "__sizeof__",
   "__str__", "__subclasshook__", "__weakref__"]

/-- Whether `getattr` finds `name` on the instance although it is not a
predicate method. -/
def inheritedAttr (name : String) : Bool := inheritedAttrNames.contains name

/-- The TypeError raised when the dispatch site calls an inherited
attribute with its four arguments: every member of `inheritedAttrNames`
other than `__subclasshook__` either is not callable (`__doc__`,
`__dict__`, `__module__`, `__weakref__`) or rejects the call arity
(`__init__` takes at most 2 arguments, `__repr__` none, and so on).  The
Python message text varies per attribute; this fixed message stands for all
of them and no theorem depends on its wording. -/
def inheritedCallTypeError : PyErr :=
  .typeError "inherited attribute rejects the predicate-call arguments"

/-- `Expect.expect` (`Expect.py` 620-655) with the active switch index made
explicit: build the method name from the match type (spaces to underscores,
lowercased, `_` prefixed), resolve the value to match (`expectResolved`,
whose error propagates first), then dispatch.  `getattr` finds either a
predicate method (`matchDispatch`), or an inherited attribute — whose
4-argument call raises the uncaught `inheritedCallTypeError`, except
`__subclasshook__`, a varargs class method that ignores its arguments and
returns NotImplemented so the keyword returns normally —, or nothing: only
that AttributeError becomes the ValueError of the method-not-implemented
path (the spec's UnimplementedMatchError). -/
def expectKW (st : ExpectLib) (index : Nat) (key mt : String) (mv : Option PyVal)
    (msg : Option String) : Except PyErr Unit :=
  let matchString := "_" ++ strLower (replaceSpace mt)
  match expectResolved st index key with
  | .error e => .error e
  | .ok returned =>
    match matchDispatch matchString with
    | Option.none =>
      if inheritedAttr matchString then
        if matchString = "__subclasshook__" then .ok ()
        else .error inheritedCallTypeError
      else
        .error (.valueError (AE_ERR ++ "\"" ++ mt ++
          "\" is currently not implemented for Expect"))
    | some fam => applyMatchFamily fam (pySplit key) returned mv msg

/-- `Expect.get_value` (`Expect.py` 449-487) with the active switch index
made explicit: same stored-result fetch and descent as `expectKW`, but only
the key 'config' (case-insensitive) skips descent, and the resolved value is
returned. -/
def getValueKW (st : ExpectLib) (index : Nat) (key : String) : Except PyErr PyVal :=
  match alLookup st.result index with
  | Option.none => .error (.keyError (toString index))
  | some r0 =>
    if strLower key = "config" then .ok r0
    else descend r0 (pySplit key)

/-- A keyword call as the Robot runner sees it: the library state afterwards
together with the outcome.  `Expect.expect` contains no assignment to
`self`, so the state comes back unchanged. -/
def expectCall (st : ExpectLib) (index : Nat) (key mt : String) (mv : Option PyVal)
    (msg : Option String) : ExpectLib × Except PyErr Unit :=
  (st, expectKW st index key mt mv msg)

/-- `Expect.get_value` as a state-threading call; it contains no assignment
to `self` either. -/
def getValueCall (st : ExpectLib) (index : Nat) (key : String) :
    ExpectLib × Except PyErr PyVal :=
  (st, getValueKW st index key)

/-- The error prefix `AE_ERR` of `AristaExpect.py`. -/
def AEX_ERR : String := "AristaExpect: "

/-- One step `returned = returned[k]` of path descent in
`AristaExpect.expect` (`AristaExpect.py` 515-516): no `except TypeError`
recovery exists there, so indexing a list (or anything else that is not a
dict) with a string segment raises its TypeError directly. -/
def getItemAE (v : PyVal) (k : String) : Except PyErr PyVal :=
  match v with
  | .dict d =>
    match dictGet d k with
    | some w => .ok w
    | Option.none => .error (.keyError k)
  | .list _ => .error (.typeError "list indices must be integers, not str")
  | .str _ => .error (.typeError "string indices must be integers, not str")
  | _ => .error (.typeError "object is not subscriptable")

/-- The descent loop of `AristaExpect.expect`. -/
def descendAE : PyVal → List String → Except PyErr PyVal
  | v, [] => .ok v
  | v, k :: ks =>
    match getItemAE v k with
    | .ok w => descendAE w ks
    | .error e => .error e

/-- `AristaExpect._is` (535-543): as `Expect._is`, with the `AristaExpect: `
prefix and no message override parameter. -/
def ae_is (key : List String) (returned : PyVal) (mv : Option PyVal) :
    Except PyErr Unit :=
  let r := pyStr returned
  if strEqPy r mv then .ok ()
  else
    .error (.runtimeError (AEX_ERR ++ "Key: '" ++ reprStrList key ++
      "', Found: '" ++ r ++ "', Expected: '" ++ mvStr mv ++ "'"))

/-- `AristaExpect._is_not` (562-570). -/
def ae_is_not (key : List String) (returned : PyVal) (mv : Option PyVal) :
    Except PyErr Unit :=
  let r := pyStr returned
  if strEqPy r mv then
    .error (.runtimeError (AEX_ERR ++ "Key: '" ++ reprStrList key ++
      "', Found: '" ++ r ++ "', Expected to not be: '" ++ mvStr mv ++ "'"))
  else .ok ()

/-- `AristaExpect._starts_with` (589-597). -/
def ae_starts_with (key : List String) (returned : PyVal) (mv : Option PyVal) :
    Except PyErr Unit :=
  let r := pyStr returned
  match mv with
  | some (.str t) =>
    if strStarts r t then .ok ()
    else
      .error (.runtimeError (AEX_ERR ++ "Key: '" ++ reprStrList key ++
        "', Found: '" ++ r ++ "', Expected to start with: '" ++ t ++ "'"))
  | _ => .error (.typeError "startswith first arg must be str, unicode, or tuple")

/-- `AristaExpect._contains` (610-630): string and list branches only — the
dict branch of `Expect.py` does not exist in this variant. -/
def ae_contains (key : List String) (returned : PyVal) (mv : Option PyVal) :
    Except PyErr Unit :=
  match returned with
  | .str s =>
    match mv with
    | some (.str t) =>
      if strInfix t s then .ok ()
      else
        .error (.runtimeError (AEX_ERR ++ "Key: '" ++ reprStrList key ++
          "', Found: '" ++ s ++ "', Expected to contain: '" ++ t ++ "'"))
    | _ => .error (.typeError "'in <string>' requires string as left operand")
  | .list l =>
    if l.any (fun w => pyEq (mvVal mv) w) then .ok ()
    else
      .error (.runtimeError (AEX_ERR ++ "Did not find '" ++ mvStr mv ++
        "' in '" ++ reprStrList key ++ "'"))
  | _ => .error (.runtimeError (AEX_ERR ++ "Unable to determine type of return value"))

/-- `AristaExpect._does_not_contain` (640-660). -/
def ae_does_not_contain (key : List String) (returned : PyVal) (mv : Option PyVal) :
    Except PyErr Unit :=
  match returned with
  | .str s =>
    match mv with
    | some (.str t) =>
      if strInfix t s then
        .error (.runtimeError (AEX_ERR ++ "Key: '" ++ reprStrList key ++
          "', Found: '" ++ s ++ "', Expected to not contain: '" ++ t ++ "'"))
      else .ok ()
    | _ => .error (.typeError "'in <string>' requires string as left operand")
  | .list l =>
    if l.any (fun w => pyEq (mvVal mv) w) then
      .error (.runtimeError (AEX_ERR ++ "Found '" ++ mvStr mv ++
        "' in '" ++ reprStrList key ++ "'"))
    else .ok ()
  | _ => .error (.runtimeError (AEX_ERR ++ "Unable to determine type of return value"))

/-- `AristaExpect._contains_line` (673-692): unlike `Expect.py`, the string
branch compares without stripping and the list branch is plain membership
(no regex search). -/
def ae_contains_line (key : List String) (returned : PyVal) (mv : Option PyVal) :
    Except PyErr Unit :=
  match returned with
  | .str s =>
    if strEqPy s mv then .ok ()
    else
      .error (.runtimeError (AEX_ERR ++ "Key: '" ++ reprStrList key ++
        "', Found: '" ++ s ++ "', Expected to be: '" ++ mvStr mv ++ "'"))
  | .list l =>
    if l.any (fun w => pyEq (mvVal mv) w) then .ok ()
    else
      .error (.runtimeError (AEX_ERR ++ "Did not find '" ++ mvStr mv ++
        "' in '" ++ reprStrList key ++ "'"))
  | _ => .error (.runtimeError (AEX_ERR ++ "Unable to determine type of return value"))

/-- `AristaExpect._does_not_contain_line` (702-721). -/
def ae_does_not_contain_line (key : List String) (returned : PyVal)
    (mv : Option PyVal) : Except PyErr Unit :=
  match returned with
  | .str s =>
    if strEqPy s mv then
      .error (.runtimeError (AEX_ERR ++ "Found '" ++ mvStr mv ++
        "' in key '" ++ reprStrList key ++ "', Expected to not be found"))
    else .ok ()
  | .list l =>
    if l.any (fun w => pyEq (mvVal mv) w) then
      .error (.runtimeError (AEX_ERR ++ "Found '" ++ mvStr mv ++
        "' in '" ++ reprStrList key ++ "'"))
    else .ok ()
  | _ => .error (.runtimeError (AEX_ERR ++ "Unable to determine type of return value"))

/-- The predicate families `AristaExpect.py` implements (no empty/notEmpty
and no greater/less variants exist in that file). -/
inductive AEFamily where
  | isF
  | isNotF
  | startsWithF
  | containsF
  | notContainsF
  | containsLineF
  | notContainsLineF
deriving Repr, DecidableEq

/-- The predicate-method part of the `getattr` lookup of
`AristaExpect.expect`: every listed name is a predicate method of
`AristaExpect.py`.  As in `Expect.py`, `getattr` also finds the inherited
attributes of `inheritedAttrNames` (handled in `aeExpectKW`); only a miss
on those too is the AttributeError of the method-not-implemented path. -/
def aeDispatch : String → Option AEFamily
  | "_is" | "_is_equal_to" | "_isequalto" | "_equals" | "_to_be" | "_tobe" =>
    some .isF
  | "_is_not" | "_isnot" | "_is_not_equal_to" | "_isnotequalto" | "_to_not_be"
  | "_tonotbe" => some .isNotF
  | "_starts_with" | "_startswith" | "_begins_with" | "_beginswith" =>
    some .startsWithF
  | "_contains" | "_to_contain" | "_tocontain" => some .containsF
  | "_does_not_contain" | "_doesnotcontain" | "_to_not_contain" | "_tonotcontain" =>
    some .notContainsF
  | "_contains_line" | "_to_contain_line" | "_tocontainline" => some .containsLineF
  | "_does_not_contain_line" | "_doesnotcontainline" | "_to_not_contain_line"
  | "_tonotcontainline" => some .notContainsLineF
  | _ => Option.none

/-- Dispatch of an `AristaExpect` family. -/
def applyAEFamily : AEFamily → List String → PyVal → Option PyVal →
    Except PyErr Unit
  | .isF, k, r, m => ae_is k r m
  | .isNotF, k, r, m => ae_is_not k r m
  | .startsWithF, k, r, m => ae_starts_with k r m
  | .containsF, k, r, m => ae_contains k r m
  | .notContainsF, k, r, m => ae_does_not_contain k r m
  | .containsLineF, k, r, m => ae_contains_line k r m
  | .notContainsLineF, k, r, m => ae_does_not_contain_line k r m

/-- Result fetch and value resolution of `AristaExpect.expect`
(`AristaExpect.py` 503-516): unlike `Expect.py`, only the key 'config'
(case-insensitive) skips descent — there is no reserved 'full output' in
this variant — and the descent has no TypeError recovery. -/
def aeResolved (st : ExpectLib) (index : Nat) (key : String) :
    Except PyErr PyVal :=
  match alLookup st.result index with
  | Option.none => .error (.keyError (toString index))
  | some r0 =>
    if strLower key = "config" then .ok r0
    else descendAE r0 (pySplit key)

/-- `AristaExpect.expect` (`AristaExpect.py` 503-531): resolution via
`aeResolved`, then the same method-name dispatch as `expectKW` — including
the inherited attributes `getattr` finds beyond the predicate methods —
over the families this variant implements; there is no message override
parameter. -/
def aeExpectKW (st : ExpectLib) (index : Nat) (key mt : String)
    (mv : Option PyVal) : Except PyErr Unit :=
  let matchString := "_" ++ strLower (replaceSpace mt)
  match aeResolved st index key with
  | .error e => .error e
  | .ok returned =>
    match aeDispatch matchString with
    | Option.none =>
      if inheritedAttr matchString then
        if matchString = "__subclasshook__" then .ok ()
        else .error inheritedCallTypeError
      else
        .error (.valueError (AEX_ERR ++ "\"" ++ mt ++
          "\" is currently not implemented for Expect"))
    | some fam => applyAEFamily fam (pySplit key) returned mv

/-- The eAPI collaborator (`self.arista_lib`) as `get_command_output` uses
it: responses of `enable(cmd)` (the decoded `reply[0]['result']`),
`enable(cmd, encoding='text')` (the text `reply[0]['result']['output']`),
and the configs `get_running_config` / `get_startup_config` return after
`refresh()`.  Modelled as total response functions: collaborator-side
failures (CommandExecutionError) propagate unchanged through the library
and are outside this embedding. -/
structure Collab where
  enableJson : PyCmd → PyVal
  enableTextOutput : String → String
  runningConfig : String
  startupConfig : String

/-- The command-resolution head of the `for switch in switch_list` body of
`Expect.get_command_output` (`Expect.py` 240-260): the `cmd` argument if
truthy, else this switch's remembered command if present and truthy, else
the import-time command if truthy, else `None`; alongside the updated
`switch_cmd` dict (the remembered-command case leaves it unchanged, every
other case assigns). -/
def resolveRunCmd (st : ExpectLib) (index : Nat) (cmd : Option PyCmd) :
    Option PyCmd × List (Nat × Option PyCmd) :=
  if cmdTruthy cmd then (cmd, alInsert st.switchCmd index cmd)
  else if (match alLookup st.switchCmd index with
           | some v => cmdTruthy v
           | Option.none => false) then
    ((alLookup st.switchCmd index).getD Option.none, st.switchCmd)
  else if cmdTruthy st.importCmd then
    (st.importCmd, alInsert st.switchCmd index st.importCmd)
  else (Option.none, alInsert st.switchCmd index Option.none)

/-- A raw config split into the `TextLines` list the library stores. -/
def textLinesOf (s : String) : PyVal := .list ((pySplitLines s).map .str)

/-- `re.match(r'^show (startup|running)-config.*$', cmd)` on a string
without newlines: a prefix test. -/
def isShowConfigCmd (s : String) : Bool :=
  strStarts s "show startup-config" || strStarts s "show running-config"

/-- One iteration of the `for switch in switch_list` loop of
`Expect.get_command_output` (`Expect.py` 240-298): resolve the command,
clear this switch's result to `None`, then decode by command shape — a
dict/list payload and a plain string go to `enable` (JSON), the two exact
config commands read the refreshed configs, any other
`show (startup|running)-config...` runs with text encoding and is split
into lines.  When no command resolved, the `elif re.match(...)` pattern is
applied to `None` and Python raises the TypeError this step reports (the
cleared result and remembered command keep their new values, as mutations
before a raise persist). -/
def getCommandOutputDevice (env : Collab) (st : ExpectLib) (index : Nat)
    (cmd : Option PyCmd) : ExpectLib × Option PyErr :=
  let rc := resolveRunCmd st index cmd
  let res0 := alInsert st.result index PyVal.none
  match rc.1 with
  | some (.dictc d) =>
    ({ importCmd := st.importCmd, switchCmd := rc.2,
       result := alInsert res0 index (env.enableJson (.dictc d)) }, Option.none)
  | some (.listc l) =>
    ({ importCmd := st.importCmd, switchCmd := rc.2,
       result := alInsert res0 index (env.enableJson (.listc l)) }, Option.none)
  | some (.strc s) =>
    if s = "show startup-config" then
      ({ importCmd := st.importCmd, switchCmd := rc.2,
         result := alInsert res0 index (textLinesOf env.startupConfig) }, Option.none)
    else if s = "show running-config all" then
      ({ importCmd := st.importCmd, switchCmd := rc.2,
         result := alInsert res0 index (textLinesOf env.runningConfig) }, Option.none)
    else if isShowConfigCmd s then
      ({ importCmd := st.importCmd, switchCmd := rc.2,
         result := alInsert res0 index (textLinesOf (env.enableTextOutput s)) }, Option.none)
    else if s ≠ "" then
      ({ importCmd := st.importCmd, switchCmd := rc.2,
         result := alInsert res0 index (env.enableJson (.strc s)) }, Option.none)
    else
      ({ importCmd := st.importCmd, switchCmd := rc.2, result := res0 }, Option.none)
  | Option.none =>
    ({ importCmd := st.importCmd, switchCmd := rc.2, result := res0 },
      some (.typeError "expected string or buffer"))

/-- `Expect.get_command_output` invoked with a specific `switch_id`
(`Expect.py` 235-236): the switch list is the single selected switch, so the
loop body runs once for its index. -/
def getCommandOutputOn (env : Collab) (st : ExpectLib) (index : Nat)
    (cmd : Option PyCmd) : ExpectLib × Option PyErr :=
  getCommandOutputDevice env st index cmd

/-- Spec-side normalization of a match type, written from the spec's words
"lowercase, strip internal spaces" — the code itself replaces each space by
an underscore instead (`replaceSpace`), which is what the C7 comparison is
about. -/
def specNormalize (s : String) : String :=
  strLower ⟨s.data.filter (fun c => c ≠ ' ')⟩

/-- Whether a predicate call passed (no exception raised). -/
def isOkB : Except PyErr Unit → Bool
  | .ok _ => true
  | .error _ => false

/-- A suite state whose switch 1 cached the `TextLines` of scenario 2. -/
def stC : ExpectLib :=
  { importCmd := Option.none, switchCmd := [],
    result := [(1, .list [.str "!", .str "ip routing", .str "!"])] }

/-- A suite state whose switch 1 cached the structured result `{'x': 5}`. -/
def stN : ExpectLib :=
  { importCmd := Option.none, switchCmd := [], result := [(1, .dict [("x", .int 5)])] }

/-- A suite state whose switch 1 cached the structured result `{'a': 1}`. -/
def stA : ExpectLib :=
  { importCmd := Option.none, switchCmd := [], result := [(1, .dict [("a", .int 1)])] }

/-- A suite state whose switch 1 cached the plain string result `'x'`. -/
def stS : ExpectLib :=
  { importCmd := Option.none, switchCmd := [], result := [(1, .str "x")] }

/-- A suite state with a remembered command and a stored result on switch 1
only. -/
def stW : ExpectLib :=
  { importCmd := Option.none, switchCmd := [(1, some (.strc "show hostname"))],
    result := [(1, .dict [("hostname", .str "sw1")])] }

/-- A fixed collaborator for witness instantiations. -/
def env0 : Collab :=
  { enableJson := fun _ => .dict [("hostname", .str "sw2")],
    enableTextOutput := fun _ => "line1\nline2",
    runningConfig := "!\nip routing\n!",
    startupConfig := "!\nno ip routing\n!" }

/-- Updating one index of an association-list dict leaves every other index
unchanged. -/
theorem alLookup_alInsert_ne {α : Type} (m : List (Nat × α)) (k j : Nat) (v : α)
    (h : j ≠ k) : alLookup (alInsert m k v) j = alLookup m j := by
  induction m with
  | nil => simp [alInsert, alLookup, Ne.symm h]
  | cons p rest ih =>
    obtain ⟨a, b⟩ := p
    by_cases hak : a = k
    · subst hak
      simp [alInsert, alLookup, h, Ne.symm h]
    · simp [alInsert, alLookup, hak]
      by_cases haj : a = j
      · simp [haj, alLookup]
      · simp [haj, alLookup, ih]

/-- Updating one index of an association-list dict stores the value there. -/
theorem alLookup_alInsert_self {α : Type} (m : List (Nat × α)) (k : Nat) (v : α) :
    alLookup (alInsert m k v) k = some v := by
  induction m with
  | nil => simp [alInsert, alLookup]
  | cons p rest ih =>
    obtain ⟨a, b⟩ := p
    by_cases hak : a = k
    · subst hak; simp [alInsert, alLookup]
    · simp [alInsert, alLookup, hak, ih]

/-- The match-collecting comprehension of `_contains_line` over a list of
string lines finds a match exactly when some line contains the pattern. -/
theorem containsLineList_strings (pat : String) (lines : List String) :
    containsLineList pat (lines.map PyVal.str) =
      .ok (lines.any (fun l => strInfix pat l)) := by
  induction lines with
  | nil => rfl
  | cons l ls ih => simp [containsLineList, ih, List.any_cons, Bool.or_comm]

/-- Whether a predicate family call passes is independent of the key list it
is handed: the key only ever enters the generated failure messages. -/
theorem isOkB_key_indep (fam : MatchFamily) (k1 k2 : List String) (r : PyVal)
    (mv : Option PyVal) (msg : Option String) :
    isOkB (applyMatchFamily fam k1 r mv msg) =
      isOkB (applyMatchFamily fam k2 r mv msg) := by
  cases fam <;>
    simp only [applyMatchFamily, py_is, py_is_not, py_empty, py_not_empty,
      py_starts_with, py_contains, py_does_not_contain, py_contains_line,
      py_does_not_contain_line, py_greater, py_less] <;>
    (repeat' split) <;> rfl

/-- Unfolding `expectKW` once the resolution step is known to succeed. -/
theorem expectKW_of_resolved (st : ExpectLib) (index : Nat) (key mt : String)
    (mv : Option PyVal) (msg : Option String) (r0 : PyVal)
    (h : expectResolved st index key = .ok r0) :
    expectKW st index key mt mv msg =
      (match matchDispatch ("_" ++ strLower (replaceSpace mt)) with
       | Option.none =>
         if inheritedAttr ("_" ++ strLower (replaceSpace mt)) then
           if ("_" ++ strLower (replaceSpace mt)) = "__subclasshook__" then .ok ()
           else .error inheritedCallTypeError
         else
           .error (.valueError (AE_ERR ++ "\"" ++ mt ++
             "\" is currently not implemented for Expect"))
       | some fam => applyMatchFamily fam (pySplit key) r0 mv msg) := by
  unfold expectKW
  rw [h]

/-- Unfolding `expectKW` when the resolution step fails: the lookup or
descent error is raised before the match type is even looked up. -/
theorem expectKW_of_resolved_error (st : ExpectLib) (index : Nat)
    (key mt : String) (mv : Option PyVal) (msg : Option String) (e : PyErr)
    (h : expectResolved st index key = .error e) :
    expectKW st index key mt mv msg = .error e := by
  unfold expectKW
  rw [h]

/-- C1 (counterexample): with cached `TextLines` `['!', 'ip routing', '!']`,
`Expect('config', 'to contain line', 'ip')` passes although `'ip'` is not an
exact element of the stored line list, so "passes iff `L` is an exact
element" is false: the list branch of `_contains_line` is a
substring-tolerant regex search, not exact membership. -/
theorem c1_contains_line_counterexample :
    expectKW stC 1 "config" "to contain line" (some (.str "ip")) Option.none = .ok () ∧
    (["!", "ip routing", "!"].contains "ip") = false :=
  ⟨by decide, by decide⟩

/-- C1 (amended): after `FetchCommandOutput` stored a `TextLines` list,
`Expect` with keyPath `config` and matchType `to contain line` passes iff
some stored line contains the match value as a substring (for match values
free of regex metacharacters, which is what the source's
`re.search("\s*" + L, line)` tests); when the cached result is a single
string, it passes iff the string equals the match value after trimming. -/
theorem c1_contains_line_amended (st : ExpectLib) (index : Nat) (L : String)
    (msg : Option String) :
    (∀ lines : List String, regexLiteral L = true →
      alLookup st.result index = some (.list (lines.map .str)) →
      ((expectKW st index "config" "to contain line" (some (.str L)) msg = .ok ()) ↔
        ∃ line ∈ lines, strInfix L line = true)) ∧
    (∀ s : String,
      alLookup st.result index = some (.str s) →
      ((expectKW st index "config" "to contain line" (some (.str L)) msg = .ok ()) ↔
        pyStrip s = L)) := by
  have hres : ∀ r0 : PyVal, alLookup st.result index = some r0 →
      expectResolved st index "config" = .ok r0 := by
    intro r0 h
    unfold expectResolved
    rw [h]
    exact if_pos (Or.inl (by decide))
  have hd : matchDispatch ("_" ++ strLower (replaceSpace "to contain line")) =
      some .containsLineF := by decide
  constructor
  · intro lines _hlit h
    rw [expectKW_of_resolved st index "config" "to contain line"
      (some (.str L)) msg _ (hres _ h), hd]
    simp only [applyMatchFamily, py_contains_line,
      show mvStr (some (PyVal.str L)) = L from rfl]
    rw [containsLineList_strings]
    cases hany : lines.any (fun l => strInfix L l) with
    | true =>
      refine ⟨fun _ => ?_, fun _ => rfl⟩
      simpa using List.any_eq_true.mp hany
    | false =>
      refine ⟨fun hcon => Except.noConfusion hcon, fun hex => ?_⟩
      have hx : lines.any (fun l => strInfix L l) = true :=
        List.any_eq_true.mpr (by simpa using hex)
      rw [hany] at hx
      exact Bool.noConfusion hx
  · intro s h
    rw [expectKW_of_resolved st index "config" "to contain line"
      (some (.str L)) msg _ (hres _ h), hd]
    simp only [applyMatchFamily, py_contains_line, strEqPy]
    by_cases heq : pyStrip s = L
    · simp [heq]
    · simp [heq]

/-- C1 (witness): the amended equivalence at scenario 2's cache: the line
`ip routing` is found, the line `no ip routing` is not. -/
theorem c1_contains_line_amended_witness :
    (expectKW stC 1 "config" "to contain line" (some (.str "ip routing")) Option.none
      = .ok ()) ∧
    ¬ (expectKW stC 1 "config" "to contain line" (some (.str "no ip routing")) Option.none
      = .ok ()) :=
  ⟨((c1_contains_line_amended stC 1 "ip routing" Option.none).1
      ["!", "ip routing", "!"] (by decide) rfl).mpr
    ⟨"ip routing", by decide, by decide⟩,
   fun h =>
    absurd (((c1_contains_line_amended stC 1 "no ip routing" Option.none).1
      ["!", "ip routing", "!"] (by decide) rfl).mp h)
      (by decide)⟩

/-- C2: in the greaterThan/lessThan families both sides are numerically
coerced — on strings an integer parse is attempted first, then a float parse
(`pyNumCoerce`) — and the comparison on the coerced values is ordinary
numeric `<`/`>`; with resolved value `5` and matchValue `"3"`, `greater
than` passes; and coercion failure on either side raises the RuntimeError
naming that side (`Returned:` / `Match:` wording), which is not the
`Should be greater than` assertion-failure message. -/
theorem c2_numeric_coercion :
    (∀ (key : List String) (r : PyVal) (mv : Option PyVal) (msg : Option String)
      (a b : Rat),
      pyNumCoerce r = .val a → pyNumCoerce (mvVal mv) = .val b →
      ((py_greater key r mv msg = .ok ()) ↔ b < a) ∧
      ((py_less key r mv msg = .ok ()) ↔ a < b)) ∧
    (∀ (s : String) (n : Int), pyParseInt s = some n →
      pyNumCoerce (.str s) = .val (n : Rat)) ∧
    (∀ (s : String) (q : Rat), pyParseInt s = Option.none → pyParseFloat s = some q →
      pyNumCoerce (.str s) = .val q) ∧
    (∀ (key : List String) (r : PyVal) (msg : Option String) (a : Rat),
      pyNumCoerce r = .val a →
      py_greater key r (some (.str "abc")) msg =
        .error (.runtimeError (AE_ERR ++ "Key: '" ++ reprStrList key ++
          "', Match: '" ++ "abc" ++ "', must provide an int or float as a match value."))) ∧
    (∀ (key : List String) (mv : Option PyVal) (msg : Option String),
      py_greater key (.str "abc") mv msg =
        .error (.runtimeError (AE_ERR ++ "Key: '" ++ reprStrList key ++
          "', Returned: '" ++ "abc" ++ "', must compare to an int or float."))) ∧
    (expectKW stN 1 "x" "greater than" (some (.str "3")) Option.none = .ok ()) ∧
    (expectKW stN 1 "x" "greater than" (some (.str "abc")) Option.none =
      .error (.runtimeError "AristaLibrary.Expect: Key: '['x']', Match: 'abc', must provide an int or float as a match value.")) ∧
    (strInfix "Match: 'abc'"
      "AristaLibrary.Expect: Key: '['x']', Match: 'abc', must provide an int or float as a match value." = true) ∧
    (strInfix "Should be greater than"
      "AristaLibrary.Expect: Key: '['x']', Match: 'abc', must provide an int or float as a match value." = false) := by
  refine ⟨?_, ?_, ?_, ?_, ?_, by decide, by decide, by decide, by decide⟩
  · intro key r mv msg a b h1 h2
    constructor
    · simp only [py_greater, h1, h2]
      by_cases hab : a ≤ b
      · rw [if_pos hab]
        exact ⟨fun hc => Except.noConfusion hc, fun hlt => absurd hlt (not_lt.mpr hab)⟩
      · rw [if_neg hab]
        exact ⟨fun _ => not_le.mp hab, fun _ => rfl⟩
    · simp only [py_less, h1, h2]
      by_cases hba : b ≤ a
      · rw [if_pos hba]
        exact ⟨fun hc => Except.noConfusion hc, fun hlt => absurd hlt (not_lt.mpr hba)⟩
      · rw [if_neg hba]
        exact ⟨fun _ => not_le.mp hba, fun _ => rfl⟩
  · intro s n h
    simp [pyNumCoerce, h]
  · intro s q h1 h2
    simp [pyNumCoerce, h1, h2]
  · intro key r msg a h
    have habc : pyNumCoerce (mvVal (some (.str "abc"))) = .strFail := by decide
    simp only [py_greater, h, habc]
    rfl
  · intro key mv msg
    have habc : pyNumCoerce (.str "abc") = NumCoerce.strFail := by decide
    simp only [py_greater, habc]
    rfl

/-- C2 (witness): the equivalence instantiated at scenario 5, resolved value
`5` against matchValue `"3"`: greaterThan passes, lessThan does not. -/
theorem c2_numeric_coercion_witness :
    py_greater ["x"] (.int 5) (some (.str "3")) Option.none = .ok () ∧
    ¬ (py_less ["x"] (.int 5) (some (.str "3")) Option.none = .ok ()) := by
  have h := c2_numeric_coercion.1 ["x"] (.int 5) (some (.str "3")) Option.none 5 3
    (by decide) (by decide)
  exact ⟨h.1.mpr (by norm_num), fun hk => absurd (h.2.mp hk) (by norm_num)⟩

/-- C3 (counterexample): with cached result `{'a': 1}`, keyPath `b` and the
unknown matchType `kinda like`, `Expect` raises the KeyError of the failed
path descent, not the unimplemented-match ValueError — so "raises an
UnimplementedMatchError regardless of the cached result, keyPath, or
matchValue" fails: path resolution runs before the match type is looked
up. -/
theorem c3_unimplemented_counterexample :
    expectKW stA 1 "b" "kinda like" (some (.str "x")) Option.none =
      .error (.keyError "b") ∧
    PyErr.keyError "b" ≠
      PyErr.valueError (AE_ERR ++ "\"" ++ "kinda like" ++
        "\" is currently not implemented for Expect") :=
  ⟨by decide, by decide⟩

/-- C3 (amended): for every matchType whose method-name normalization
(`_` + spaces-to-underscores + lowercase) is neither an implemented
predicate method nor an attribute `getattr` finds through the object
protocol, `Expect` raises the unimplemented-match ValueError for every
matchValue and message — provided the device has a cached result and the
keyPath resolves (is reserved, or its descent succeeds): a missing cached
result or a failed descent raises its own error (NoResultError / PathError)
before the match type is examined.  A matchType whose normalization does
reach an inherited attribute (e.g. `_init__`, normalizing to `__init__`)
instead raises the uncaught TypeError of calling that attribute with the
dispatch site's four arguments — except `_subclasshook__`, whose target
ignores its arguments and returns NotImplemented, so the keyword passes. -/
theorem c3_unimplemented_amended (st : ExpectLib) (index : Nat) (key mt : String)
    (mv : Option PyVal) (msg : Option String) (r0 v : PyVal)
    (h1 : alLookup st.result index = some r0)
    (h2 : matchDispatch ("_" ++ strLower (replaceSpace mt)) = Option.none)
    (hres : (strLower key = "config" ∨ strLower key = "full output") ∨
      descend r0 (pySplit key) = .ok v) :
    (inheritedAttr ("_" ++ strLower (replaceSpace mt)) = false →
      expectKW st index key mt mv msg =
        .error (.valueError (AE_ERR ++ "\"" ++ mt ++
          "\" is currently not implemented for Expect"))) ∧
    (inheritedAttr ("_" ++ strLower (replaceSpace mt)) = true →
      ("_" ++ strLower (replaceSpace mt)) ≠ "__subclasshook__" →
      expectKW st index key mt mv msg = .error inheritedCallTypeError) ∧
    (("_" ++ strLower (replaceSpace mt)) = "__subclasshook__" →
      expectKW st index key mt mv msg = .ok ()) := by
  have hok : ∃ w : PyVal, expectResolved st index key = .ok w := by
    cases hres with
    | inl hr =>
      exact ⟨r0, by unfold expectResolved; rw [h1]; exact if_pos hr⟩
    | inr hd =>
      by_cases hr : strLower key = "config" ∨ strLower key = "full output"
      · exact ⟨r0, by unfold expectResolved; rw [h1]; exact if_pos hr⟩
      · exact ⟨v, by unfold expectResolved; rw [h1]; exact (if_neg hr).trans hd⟩
  obtain ⟨w, hw⟩ := hok
  refine ⟨fun hni => ?_, fun hi hs => ?_, fun hsub => ?_⟩ <;>
    rw [expectKW_of_resolved st index key mt mv msg w hw, h2]
  · rw [if_neg (by simp [hni])]
  · rw [if_pos hi, if_neg hs]
  · rw [hsub, if_pos (by decide), if_pos rfl]

/-- C3 (witness): the amended statement at cached `{'a': 1}` with the
resolvable keyPath `a`: the unknown matchType `kinda like` raises the
unimplemented-match ValueError, the inherited-attribute matchType `_init__`
raises the call TypeError, and `_subclasshook__` passes. -/
theorem c3_unimplemented_amended_witness :
    expectKW stA 1 "a" "kinda like" (some (.str "x")) Option.none =
      .error (.valueError (AE_ERR ++ "\"" ++ "kinda like" ++
        "\" is currently not implemented for Expect")) ∧
    expectKW stA 1 "a" "_init__" (some (.str "x")) Option.none =
      .error inheritedCallTypeError ∧
    expectKW stA 1 "a" "_subclasshook__" (some (.str "x")) Option.none = .ok () :=
  ⟨(c3_unimplemented_amended stA 1 "a" "kinda like" (some (.str "x")) Option.none
      (.dict [("a", .int 1)]) (.int 1) rfl (by decide) (Or.inr rfl)).1 (by decide),
   (c3_unimplemented_amended stA 1 "a" "_init__" (some (.str "x")) Option.none
      (.dict [("a", .int 1)]) (.int 1) rfl (by decide) (Or.inr rfl)).2.1
     (by decide) (by decide),
   (c3_unimplemented_amended stA 1 "a" "_subclasshook__" (some (.str "x")) Option.none
      (.dict [("a", .int 1)]) (.int 1) rfl (by decide) (Or.inr rfl)).2.2 (by decide)⟩

/-- C4: the claim's uniform AssertionFailure shape breaks in the lessThan
family: its failing branch executes `raise RuntimeError(msg='...')`, which
Python rejects as a keyword argument with a TypeError, so the caller's
override `custom` is discarded and no AssertionFailure is raised; the
equals and greaterThan families, evaluated at the same cache with the same
override, honour it. -/
theorem c4_less_msg_override_bug :
    expectKW stN 1 "x" "less than" (some (.str "3")) (some "custom") =
      .error (.typeError "RuntimeError does not accept keyword arguments") ∧
    expectKW stN 1 "x" "is" (some (.str "other")) (some "custom") =
      .error (.runtimeError "custom") ∧
    expectKW stN 1 "x" "greater than" (some (.str "7")) (some "custom") =
      .error (.runtimeError "custom") ∧
    expectKW stN 1 "x" "is" (some (.str "other")) Option.none =
      .error (.runtimeError
        "AristaLibrary.Expect: Key: '['x']', Found: '5', Expected: 'other'") :=
  ⟨by decide, by decide, by decide, by decide⟩

/-- C5 (counterexample): in the `AristaExpect.py` variant of the Expect
keyword, the keyPath `full output` does NOT skip path descent: with cached
result `{'a': 1}` it is split into `['full', 'output']` and descending
raises `KeyError('full')` — under the claim the whole cached result would
have been matched and no path error could arise (as in `Expect.py`, shown
for contrast, where the same call stringifies the whole dict and fails the
equality). -/
theorem c5_reserved_keys_counterexample :
    aeExpectKW stA 1 "full output" "is" (some (.str "x")) =
      .error (.keyError "full") ∧
    expectKW stA 1 "full output" "is" (some (.str "x")) Option.none =
      .error (.runtimeError
        "AristaLibrary.Expect: Key: '['full', 'output']', Found: '\x7b'a': 1\x7d', Expected: 'x'") :=
  ⟨by decide, by decide⟩

/-- C5 (amended): in `Expect.py`, every keyPath equal case-insensitively to
`config` or `full output` skips descent and the whole cached result is the
value to match, whatever its shape, and every other keyPath is split on
whitespace and descended segment by segment; in the `AristaExpect.py`
variant only `config` is reserved — `full output` is split and descended
like any other key. -/
theorem c5_reserved_keys_amended (st : ExpectLib) (index : Nat) (key : String)
    (r0 : PyVal) (h : alLookup st.result index = some r0) :
    ((strLower key = "config" ∨ strLower key = "full output") →
      expectResolved st index key = .ok r0) ∧
    (¬ (strLower key = "config" ∨ strLower key = "full output") →
      expectResolved st index key = descend r0 (pySplit key)) ∧
    (strLower key = "config" → aeResolved st index key = .ok r0) ∧
    (strLower key ≠ "config" →
      aeResolved st index key = descendAE r0 (pySplit key)) ∧
    (aeResolved st index "full output" = descendAE r0 ["full", "output"]) := by
  refine ⟨fun hres => ?_, fun hres => ?_, fun hres => ?_, fun hres => ?_, ?_⟩
  · unfold expectResolved
    rw [h]
    exact if_pos hres
  · unfold expectResolved
    rw [h]
    exact if_neg hres
  · unfold aeResolved
    rw [h]
    exact if_pos hres
  · unfold aeResolved
    rw [h]
    exact if_neg hres
  · unfold aeResolved
    rw [h]
    exact (if_neg (by decide)).trans (by rw [show pySplit "full output" = ["full", "output"] from by decide])

/-- C5 (witness): the amended statement at the cache `{'a': 1}`: `Expect.py`
hands the whole dict to the matcher for both reserved spellings, and
`AristaExpect.py` descends for `full output`. -/
theorem c5_reserved_keys_amended_witness :
    expectResolved stA 1 "full output" = .ok (.dict [("a", .int 1)]) ∧
    expectResolved stA 1 "CONFIG" = .ok (.dict [("a", .int 1)]) ∧
    aeResolved stA 1 "full output" =
      descendAE (.dict [("a", .int 1)]) ["full", "output"] :=
  ⟨(c5_reserved_keys_amended stA 1 "full output" (.dict [("a", .int 1)]) rfl).1
      (Or.inr (by decide)),
   (c5_reserved_keys_amended stA 1 "CONFIG" (.dict [("a", .int 1)]) rfl).1
      (Or.inl (by decide)),
   (c5_reserved_keys_amended stA 1 "full output" (.dict [("a", .int 1)]) rfl).2.2.2.2⟩

/-- C6: a device for which no result was ever stored (its index is absent
from `self.result`) makes both `Expect` and `GetValue` raise the KeyError of
`self.result[index]` — the spec's NoResultError — whatever the key, match
type, match value or message; in particular the call does not pass and the
missing result is not treated as empty. -/
theorem c6_no_result_error (st : ExpectLib) (index : Nat) (key mt : String)
    (mv : Option PyVal) (msg : Option String)
    (h : alLookup st.result index = Option.none) :
    expectKW st index key mt mv msg = .error (.keyError (toString index)) ∧
    getValueKW st index key = .error (.keyError (toString index)) := by
  constructor
  · have hres : expectResolved st index key = .error (.keyError (toString index)) := by
      unfold expectResolved
      rw [h]
    exact expectKW_of_resolved_error st index key mt mv msg _ hres
  · unfold getValueKW
    rw [h]

/-- C6 (witness): scenario 4 — `Expect('anykey', 'is', 'x')` and
`GetValue('anykey')` on a device (index 9) with no stored result. -/
theorem c6_no_result_error_witness :
    expectKW stS 9 "anykey" "is" (some (.str "x")) Option.none =
      .error (.keyError "9") ∧
    getValueKW stS 9 "anykey" = .error (.keyError "9") :=
  c6_no_result_error stS 9 "anykey" "is" (some (.str "x")) Option.none rfl

/-- C7 (counterexample): the spellings `is` and `i s` normalize identically
under the spec's rule "lowercase, strip internal spaces" (`specNormalize`),
yet with the same cached result, keyPath and matchValue one passes and the
other raises the unimplemented-match ValueError: the code maps spaces to
underscores, so `i s` becomes the nonexistent method `_i_s`. -/
theorem c7_alias_counterexample :
    specNormalize "i s" = specNormalize "is" ∧
    expectKW stS 1 "config" "is" (some (.str "x")) Option.none = .ok () ∧
    expectKW stS 1 "config" "i s" (some (.str "x")) Option.none =
      .error (.valueError (AE_ERR ++ "\"" ++ "i s" ++
        "\" is currently not implemented for Expect")) :=
  ⟨by decide, by decide, by decide⟩

/-- C7 (amended): any two matchType spellings that the code's normalization
(replace each space by an underscore, lowercase, prefix `_`) maps to
implemented alias methods of the same predicate family produce identical
outcomes for every state, keyPath, matchValue and message — this covers all
listed alias spellings of each family (e.g. `is`, `is equal to`,
`isequalto`, `equals`, `to be`, `tobe`); a spelling that only coincides with
an alias after deleting its spaces (e.g. `i s`) is not implemented and
raises the unimplemented-match error instead. -/
theorem c7_alias_equivalence (mt1 mt2 : String) (fam : MatchFamily)
    (st : ExpectLib) (index : Nat) (key : String) (mv : Option PyVal)
    (msg : Option String)
    (h1 : matchDispatch ("_" ++ strLower (replaceSpace mt1)) = some fam)
    (h2 : matchDispatch ("_" ++ strLower (replaceSpace mt2)) = some fam) :
    expectKW st index key mt1 mv msg = expectKW st index key mt2 mv msg := by
  cases hres : expectResolved st index key with
  | error e =>
    rw [expectKW_of_resolved_error st index key mt1 mv msg e hres,
      expectKW_of_resolved_error st index key mt2 mv msg e hres]
  | ok r0 =>
    rw [expectKW_of_resolved st index key mt1 mv msg r0 hres,
      expectKW_of_resolved st index key mt2 mv msg r0 hres, h1, h2]

/-- C7 (witness): the alias spellings `is equal to` and `tobe` of the equals
family agree on scenario 1-style data. -/
theorem c7_alias_equivalence_witness :
    expectKW stS 1 "config" "is equal to" (some (.str "x")) Option.none =
      expectKW stS 1 "config" "tobe" (some (.str "x")) Option.none :=
  c7_alias_equivalence "is equal to" "tobe" .isF stS 1 "config"
    (some (.str "x")) Option.none (by decide) (by decide)

/-- C8: for every device processed by `get_command_output`, the command is
chosen by the fixed precedence — (1) a truthy explicit `cmd` argument,
(2) the device's remembered command when present and truthy, (3) the
import-time default when truthy, (4) none: then no collaborator request is
made (the step does not depend on the environment at all) and the device's
stored result is left cleared to `None` (and its remembered command set to
`None`). -/
theorem c8_command_precedence (env : Collab) (st : ExpectLib) (index : Nat)
    (cmd : Option PyCmd) :
    (cmdTruthy cmd = true →
      resolveRunCmd st index cmd = (cmd, alInsert st.switchCmd index cmd)) ∧
    (∀ v, cmdTruthy cmd = false → alLookup st.switchCmd index = some v →
      cmdTruthy v = true → resolveRunCmd st index cmd = (v, st.switchCmd)) ∧
    (cmdTruthy cmd = false →
      (match alLookup st.switchCmd index with
       | some v => cmdTruthy v
       | Option.none => false) = false →
      cmdTruthy st.importCmd = true →
      resolveRunCmd st index cmd =
        (st.importCmd, alInsert st.switchCmd index st.importCmd)) ∧
    (cmdTruthy cmd = false →
      (match alLookup st.switchCmd index with
       | some v => cmdTruthy v
       | Option.none => false) = false →
      cmdTruthy st.importCmd = false →
      resolveRunCmd st index cmd =
          (Option.none, alInsert st.switchCmd index Option.none) ∧
        alLookup (getCommandOutputOn env st index cmd).1.result index =
          some PyVal.none ∧
        ∀ env2 : Collab,
          getCommandOutputOn env st index cmd =
            getCommandOutputOn env2 st index cmd) := by
  refine ⟨fun h1 => ?_, fun v h1 hv htr => ?_, fun h1 hm hi => ?_, fun h1 hm hi => ?_⟩
  · unfold resolveRunCmd
    rw [if_pos h1]
  · unfold resolveRunCmd
    rw [if_neg (by simp [h1]), hv,
      if_pos (show (match some v with
        | some u => cmdTruthy u
        | Option.none => false) = true from htr)]
    rfl
  · unfold resolveRunCmd
    rw [if_neg (by simp [h1]), if_neg (by simp [hm]), if_pos hi]
  · have hrc : resolveRunCmd st index cmd =
        (Option.none, alInsert st.switchCmd index Option.none) := by
      unfold resolveRunCmd
      rw [if_neg (by simp [h1]), if_neg (by simp [hm]), if_neg (by simp [hi])]
    refine ⟨hrc, ?_, fun env2 => ?_⟩
    · simp only [getCommandOutputOn, getCommandOutputDevice, hrc]
      exact alLookup_alInsert_self st.result index PyVal.none
    · simp only [getCommandOutputOn, getCommandOutputDevice, hrc]

/-- C8 (witness): precedence clause (4) at a concrete state with no explicit
command, no remembered command and no import-time command: the result is
cleared to `None` and no collaborator is consulted. -/
theorem c8_command_precedence_witness :
    resolveRunCmd stS 1 Option.none = (Option.none, [(1, Option.none)]) ∧
    alLookup (getCommandOutputOn env0 stS 1 Option.none).1.result 1 =
      some PyVal.none :=
  have h := (c8_command_precedence env0 stS 1 Option.none).2.2.2
    (by decide) (by decide) (by decide)
  ⟨h.1, h.2.1⟩

/-- C9: `FetchCommandOutput` aimed at one device overwrites only that
device's remembered command and stored result — every other index of both
per-device dicts, and the import-time command, are unchanged — while
`Expect` and `GetValue` return the library state unchanged (their Python
bodies contain no assignment to `self`), so a repeated `Expect` with the
same arguments against the unmodified cache returns the same outcome. -/
theorem c9_frame_effect (env : Collab) (st : ExpectLib) (index : Nat)
    (cmd : Option PyCmd) (j : Nat) (hj : j ≠ index) :
    alLookup (getCommandOutputOn env st index cmd).1.result j =
      alLookup st.result j ∧
    alLookup (getCommandOutputOn env st index cmd).1.switchCmd j =
      alLookup st.switchCmd j ∧
    (getCommandOutputOn env st index cmd).1.importCmd = st.importCmd ∧
    (∀ key mt mv msg, (expectCall st index key mt mv msg).1 = st ∧
      (expectCall st index key mt mv msg).2 =
        (expectCall (expectCall st index key mt mv msg).1 index key mt mv msg).2) ∧
    (∀ key, (getValueCall st index key).1 = st) := by
  have hsc : alLookup (resolveRunCmd st index cmd).2 j = alLookup st.switchCmd j := by
    unfold resolveRunCmd
    split_ifs <;> simp [alLookup_alInsert_ne _ _ _ _ hj]
  refine ⟨?_, ?_, ?_, fun key mt mv msg => ⟨rfl, rfl⟩, fun key => rfl⟩
  · simp only [getCommandOutputOn, getCommandOutputDevice]
    (repeat' split) <;> simp [alLookup_alInsert_ne _ _ _ _ hj]
  · simp only [getCommandOutputOn, getCommandOutputDevice]
    (repeat' split) <;> simpa using hsc
  · simp only [getCommandOutputOn, getCommandOutputDevice]
    (repeat' split) <;> rfl

/-- C9 (witness): a fetch on switch 1 of a two-device cache leaves switch
2's entries untouched, and the Expect call is state-preserving. -/
theorem c9_frame_effect_witness :
    alLookup (getCommandOutputOn env0 stW 1 (some (.strc "show version"))).1.result 2 =
      alLookup stW.result 2 ∧
    (expectCall stW 1 "hostname" "is" (some (.str "sw1")) Option.none).1 = stW :=
  have h := c9_frame_effect env0 stW 1 (some (.strc "show version")) 2 (by decide)
  ⟨h.1, (h.2.2.2.1 "hostname" "is" (some (.str "sw1")) Option.none).1⟩

/-- C10: a key whose whitespace-split is empty (spaces only, or the empty
string) is none of the reserved spellings, yet `Expect` and `GetValue`
perform no path descent: the value resolved is the whole cached result,
identically to the reserved keys — the resolution of such a key coincides
with that of `config` and of `full output`, `GetValue` coincides with the
`config` call, and the pass/fail outcome of `Expect` agrees with the
`config` call for every match type (only the generated message texts can
differ, through the key list they embed). -/
theorem c10_blank_key (key : String) (hsplit : pySplit key = [])
    (hc : strLower key ≠ "config") (hf : strLower key ≠ "full output")
    (st : ExpectLib) (index : Nat) (mt : String) (mv : Option PyVal)
    (msg : Option String) :
    expectResolved st index key = expectResolved st index "config" ∧
    expectResolved st index key = expectResolved st index "full output" ∧
    getValueKW st index key = getValueKW st index "config" ∧
    (∀ r0, alLookup st.result index = some r0 →
      expectResolved st index key = .ok r0 ∧ getValueKW st index key = .ok r0) ∧
    isOkB (expectKW st index key mt mv msg) =
      isOkB (expectKW st index "config" mt mv msg) := by
  have hkey : ∀ r0 : PyVal, alLookup st.result index = some r0 →
      expectResolved st index key = .ok r0 := by
    intro r0 h
    unfold expectResolved
    rw [h]
    refine ((if_neg (not_or.mpr ⟨hc, hf⟩)).trans ?_)
    rw [hsplit]
    rfl
  have hcfg : ∀ r0 : PyVal, alLookup st.result index = some r0 →
      expectResolved st index "config" = .ok r0 := by
    intro r0 h
    unfold expectResolved
    rw [h]
    exact if_pos (Or.inl (by decide))
  have hfo : ∀ r0 : PyVal, alLookup st.result index = some r0 →
      expectResolved st index "full output" = .ok r0 := by
    intro r0 h
    unfold expectResolved
    rw [h]
    exact if_pos (Or.inr (by decide))
  have herr : alLookup st.result index = Option.none →
      ∀ k2 : String, expectResolved st index k2 =
        .error (.keyError (toString index)) := by
    intro h k2
    unfold expectResolved
    rw [h]
  cases hres : alLookup st.result index with
  | none =>
    refine ⟨(herr hres key).trans (herr hres "config").symm,
      (herr hres key).trans (herr hres "full output").symm, ?_, ?_, ?_⟩
    · unfold getValueKW
      rw [hres]
    · intro r0 h0
      exact absurd h0 (by simp)
    · rw [expectKW_of_resolved_error st index key mt mv msg _ (herr hres key),
        expectKW_of_resolved_error st index "config" mt mv msg _ (herr hres "config")]
  | some r0 =>
    have hgv : getValueKW st index key = .ok r0 := by
      unfold getValueKW
      rw [hres]
      exact (if_neg hc).trans (by rw [hsplit]; rfl)
    refine ⟨(hkey r0 hres).trans (hcfg r0 hres).symm,
      (hkey r0 hres).trans (hfo r0 hres).symm, ?_, ?_, ?_⟩
    · rw [hgv]
      unfold getValueKW
      rw [hres]
      exact (if_pos (by decide)).symm
    · intro r1 h1
      have hr : r1 = r0 := (Option.some.inj h1).symm
      rw [hr]
      exact ⟨hkey r0 hres, hgv⟩
    · rw [expectKW_of_resolved st index key mt mv msg r0 (hkey r0 hres),
        expectKW_of_resolved st index "config" mt mv msg r0 (hcfg r0 hres)]
      cases hd : matchDispatch ("_" ++ strLower (replaceSpace mt)) with
      | none => rfl
      | some fam => exact isOkB_key_indep fam (pySplit key) (pySplit "config") r0 mv msg

/-- C10 (witness): the blank key `' '` against the cache `{'x': 5}` resolves
to the whole dict (as `config` would) and the Expect outcome for `is`
agrees with the `config` call. -/
theorem c10_blank_key_witness :
    expectResolved stN 1 " " = .ok (.dict [("x", .int 5)]) ∧
    getValueKW stN 1 " " = getValueKW stN 1 "config" ∧
    isOkB (expectKW stN 1 " " "is" (some (.str "5")) Option.none) =
      isOkB (expectKW stN 1 "config" "is" (some (.str "5")) Option.none) :=
  have h := c10_blank_key " " (by decide) (by decide) (by decide) stN 1 "is"
    (some (.str "5")) Option.none
  ⟨(h.2.2.2.1 (.dict [("x", .int 5)]) rfl).1, h.2.2.1, h.2.2.2.2⟩
